import Mathlib

/-!
Shallow embedding of the attribute / subscription validation logic of the
mstrio client library: attribute form validators, form lifecycle management,
relationship management, batch update, and subscription-manager execution.

The value objects (`FormReference`, `SchemaObjectReference`, displays, sorts,
relationships) live outside the provided sources; they are modelled from the
specification and carry doc comments saying so.  All functions named after
source methods are translated directly from
`mstrio/modeling/schema/attribute/attribute.py` and
`mstrio/distribution_services/subscription/subscription_manager.py`.
-/

/-- Modelled from the spec: `FormReference` is a lightweight (id or name)
pointer to a form; either field may be absent. -/
structure FormReference where
  id : Option String
  name : Option String
deriving DecidableEq, Repr

/-- An attribute form, reduced to the identity-relevant fields (`id`, `name`);
identity is `id`, and references resolve by id or name. -/
structure AttributeForm where
  id : String
  name : String
deriving DecidableEq, Repr

/-- Modelled from the spec: two references are referencing the same form if
either id or name matches.  `form.is_referenced_by(ref)` holds when the
reference points at `form` by id or by name. -/
def AttributeForm.is_referenced_by (form : AttributeForm) (ref : FormReference) : Bool :=
  ref.id == some form.id || ref.name == some form.name

/-- Modelled from the spec: `AttributeDisplays` holds two named lists of form
references (report and browse). -/
structure AttributeDisplays where
  report_displays : List FormReference
  browse_displays : List FormReference
deriving DecidableEq, Repr

/-- Modelled from the spec: a sort entry carries a form reference (the order
direction is irrelevant to the validated invariants). -/
structure AttributeSort where
  form : FormReference
deriving DecidableEq, Repr

/-- Modelled from the spec: `AttributeSorts` holds two optional lists of sort
entries (report and browse); in the source each sub-list may be absent. -/
structure AttributeSorts where
  report_sorts : Option (List AttributeSort)
  browse_sorts : Option (List AttributeSort)
deriving DecidableEq, Repr

/-- Modelled from the spec: an immutable descriptor identifying a schema
object by id and name. -/
structure SchemaObjectReference where
  object_id : String
  name : String
deriving DecidableEq, Repr

/-- Relationship type discriminant (ONE_TO_MANY etc.). -/
inductive RelationshipType where
  | one_to_many
  | one_to_one
  | many_to_many
deriving DecidableEq, Repr

/-- Modelled from the spec: a relationship holds either a single child or a
list of joint children; `hasattr(rel, child)` in the source corresponds to
the `child` constructor being the one present. -/
inductive RelChildren where
  | child (c : SchemaObjectReference)
  | joint_children (l : List SchemaObjectReference)
deriving DecidableEq, Repr

/-- Modelled from the spec: a relationship has a type, a lookup table, a
parent reference and child data. -/
structure Relationship where
  relationship_type : RelationshipType
  table : SchemaObjectReference
  parent : SchemaObjectReference
  children : RelChildren
deriving DecidableEq, Repr

/-- Local state of an `Attribute` entity: the fields read and written by the
form and relationship management methods of the source class. -/
structure AttrState where
  id : String
  name : String
  forms : List AttributeForm
  attribute_lookup_table : SchemaObjectReference
  key_form : Option FormReference
  displays : Option AttributeDisplays
  sorts : Option AttributeSorts
  relationships : List Relationship
deriving DecidableEq, Repr

/-- Error message used by `validate_displays` in the source. -/
def displaysErrMsg : String :=
  "FormReference present in `displays` is not present in `forms`."

/-- Error message used by `validate_sorts` in the source. -/
def sortsErrMsg : String :=
  "FormReference present in `sort` is not present in `forms`."

/-- Translation of `Attribute.validate_key_form`: empty forms fail; a single
form auto-derives a name reference to it; otherwise the supplied key form
must reference some form, else the call fails with the caller-suppliable
message. -/
def Attribute.validate_key_form (key_form : Option FormReference)
    (forms : List AttributeForm) (error_msg : Option String) :
    Except String FormReference :=
  match forms with
  | [] => .error "`forms` can not be empty."
  | [f] => .ok (FormReference.mk none (some f.name))
  | _ =>
    match key_form with
    | none =>
      .error (error_msg.getD "Please select a `key_form` from the `forms` provided.")
    | some kf =>
      if forms.any (fun form => form.is_referenced_by kf) then .ok kf
      else
        .error (error_msg.getD "Please select a `key_form` from the `forms` provided.")

/-- Translation of `Attribute.check_if_referenced_forms_exist`: fails with the
given message unless every reference resolves to some form in `forms`. -/
def Attribute.check_if_referenced_forms_exist (error_msg : String)
    (forms : List AttributeForm) (refs : List FormReference) :
    Except String Unit :=
  if refs.all (fun ref => forms.any (fun form => form.is_referenced_by ref)) then
    .ok ()
  else .error error_msg

/-- The list of id references to all forms, used to populate absent or empty
display lists. -/
def allFormRefs (forms : List AttributeForm) : List FormReference :=
  forms.map (fun form => FormReference.mk (some form.id) none)

/-- Translation of `Attribute.validate_displays`: an absent displays object is
replaced by id references to all forms in both lists; an empty sub-list is
repopulated the same way; afterwards every reference in both lists must
resolve in `forms`. -/
def Attribute.validate_displays (displays : Option AttributeDisplays)
    (forms : List AttributeForm) : Except String AttributeDisplays :=
  match displays with
  | none =>
    let form_refs := allFormRefs forms
    .ok (AttributeDisplays.mk form_refs form_refs)
  | some d =>
    let rd :=
      if d.report_displays.isEmpty then allFormRefs forms
      else d.report_displays
    let bd :=
      if d.browse_displays.isEmpty then allFormRefs forms
      else d.browse_displays
    match Attribute.check_if_referenced_forms_exist displaysErrMsg forms rd with
    | .error e => .error e
    | .ok _ =>
      match Attribute.check_if_referenced_forms_exist displaysErrMsg forms bd with
      | .error e => .error e
      | .ok _ => .ok (AttributeDisplays.mk rd bd)

/-- Translation of `Attribute.validate_sorts`: a sorts object that is absent,
or whose two sub-lists are both absent, yields the no-sorts sentinel `none`;
otherwise each present sub-list must only reference forms in `forms` and the
sorts object is returned unchanged. -/
def Attribute.validate_sorts (sorts : Option AttributeSorts)
    (forms : List AttributeForm) : Except String (Option AttributeSorts) :=
  match sorts with
  | none => .ok none
  | some s =>
    if s.browse_sorts.isNone && s.report_sorts.isNone then .ok none
    else
      match
        (match s.report_sorts with
         | none => Except.ok ()
         | some l =>
           Attribute.check_if_referenced_forms_exist sortsErrMsg forms
             (l.map (fun attr_sort : AttributeSort => attr_sort.form))) with
      | .error e => .error e
      | .ok _ =>
        match
          (match s.browse_sorts with
           | none => Except.ok ()
           | some l =>
             Attribute.check_if_referenced_forms_exist sortsErrMsg forms
               (l.map (fun attr_sort : AttributeSort => attr_sort.form))) with
        | .error e => .error e
        | .ok _ => .ok (some s)

/-- Translation of `Attribute._remove_form_from_displays`: pop the first
reference to the removed form from each display list (a Python loop with
`break` after the first `pop`), then re-validate against the remaining
forms.  Passing an absent displays object crashes in the source (attribute
access on `None`), embedded as an error. -/
def Attribute.remove_form_from_displays (form_to_be_removed : AttributeForm)
    (forms : List AttributeForm) (displays : Option AttributeDisplays) :
    Except String AttributeDisplays :=
  match displays with
  | none => .error "AttributeError: NoneType object has no attribute report_displays"
  | some d =>
    let rd := d.report_displays.eraseP
      (fun ref => form_to_be_removed.is_referenced_by ref)
    let bd := d.browse_displays.eraseP
      (fun ref => form_to_be_removed.is_referenced_by ref)
    Attribute.validate_displays (some (AttributeDisplays.mk rd bd)) forms

/-- Translation of `Attribute._remove_form_from_sorts`: pop the first sort
entry referencing the removed form from each present sub-list, then
re-validate against the remaining forms.  Passing an absent sorts object
crashes in the source (attribute access on `None`), embedded as an error. -/
def Attribute.remove_form_from_sorts (form_to_be_removed : AttributeForm)
    (forms : List AttributeForm) (sorts : Option AttributeSorts) :
    Except String (Option AttributeSorts) :=
  match sorts with
  | none => .error "AttributeError: NoneType object has no attribute report_sorts"
  | some s =>
    let rs := s.report_sorts.map (fun l =>
      l.eraseP (fun attr_sort : AttributeSort =>
        form_to_be_removed.is_referenced_by attr_sort.form))
    let bs := s.browse_sorts.map (fun l =>
      l.eraseP (fun attr_sort : AttributeSort =>
        form_to_be_removed.is_referenced_by attr_sort.form))
    Attribute.validate_sorts (some (AttributeSorts.mk rs bs)) forms

/-- Translation of `Attribute.remove_form`: split the forms on the given id
(the Python loop keeps the last matching form as `form_to_del`), fail when no
form matches or when removal would leave no forms, re-validate the key form
when the removed form was the key form, cascade the removal through displays
and sorts, and finally submit the update (the returned state). -/
def Attribute.remove_form (s : AttrState) (form_id : String)
    (new_key_form : Option FormReference) : Except String AttrState :=
  let new_forms := s.forms.filter (fun form => form.id != form_id)
  let form_to_del := (s.forms.filter (fun form => form.id == form_id)).getLast?
  let new_key_form := new_key_form.orElse (fun _ => s.key_form)
  match form_to_del with
  | none =>
    .error ("Attribute with ID " ++ s.id ++
      " does not contain attribute form with ID " ++ form_id ++ ".")
  | some form_to_del =>
    if new_forms.isEmpty then .error "You can not delete the last attribute form"
    else
      match
        (match s.key_form with
         | none => Except.error "AttributeError: NoneType object has no attribute id"
         | some key_ref =>
           if form_to_del.is_referenced_by key_ref then
             match Attribute.validate_key_form new_key_form new_forms
                 (some ("You are trying to delete the current key form. " ++
                   "Please chose new key form.")) with
             | .error e => .error e
             | .ok kf => .ok (some kf)
           else .ok new_key_form) with
      | .error e => .error e
      | .ok nk =>
        match Attribute.remove_form_from_displays form_to_del new_forms s.displays with
        | .error e => .error e
        | .ok d =>
          match Attribute.remove_form_from_sorts form_to_del new_forms s.sorts with
          | .error e => .error e
          | .ok so =>
            .ok { s with
              forms := new_forms, key_form := nk,
              displays := some d, sorts := so }

/-- Outcome of a relationship mutation as observed by the caller: either the
full relationship collection was resubmitted, or only a warning was issued
and nothing was sent. -/
inductive MutationOutcome where
  | updated
  | warned
deriving DecidableEq, Repr

/-- Translation of `Attribute._update_relationships`: append the relationship
or drop every relationship equal to it, and resubmit the whole collection
(the new state). -/
def Attribute.update_relationships (s : AttrState) (relationship : Relationship)
    (add : Bool) : AttrState :=
  let relationships :=
    if add then s.relationships ++ [relationship]
    else s.relationships.filter (fun rel => rel != relationship)
  { s with relationships := relationships }

/-- Python truthiness of an optional list argument: absent and empty lists
are both falsy. -/
def optListTruthy {α : Type} : Option (List α) → Bool
  | none => false
  | some l => !l.isEmpty

/-- Translation of `Attribute.add_child`: exactly one of `child` and
`joint_child` must be given; re-adding an existing child or joint-child
warns and skips; otherwise the new relationship (with this attribute as
parent) is appended and the collection resubmitted. -/
def Attribute.add_child (s : AttrState) (child : Option SchemaObjectReference)
    (joint_child : Option (List SchemaObjectReference))
    (relationship_type : RelationshipType)
    (table : Option SchemaObjectReference) :
    Except String (AttrState × MutationOutcome) :=
  if (child.isSome && optListTruthy joint_child) ||
      (child.isNone && !optListTruthy joint_child) then
    .error "Please specify either child or joint_child parameter."
  else
    match child with
    | some c =>
      if s.relationships.any (fun rel =>
          match rel.children with
          | .child c2 => c2 == c
          | _ => false) then
        .ok (s, .warned)
      else
        let parent := SchemaObjectReference.mk s.id s.name
        let table := table.getD s.attribute_lookup_table
        .ok (Attribute.update_relationships s
          (Relationship.mk relationship_type table parent (.child c)) true,
          .updated)
    | none =>
      match joint_child with
      | some jc =>
        if s.relationships.any (fun rel =>
            match rel.children with
            | .joint_children l => l == jc
            | _ => false) then
          .ok (s, .warned)
        else
          let parent := SchemaObjectReference.mk s.id s.name
          let table := table.getD s.attribute_lookup_table
          .ok (Attribute.update_relationships s
            (Relationship.mk relationship_type table parent (.joint_children jc))
            true, .updated)
      | none => .error "unreachable"

/-- Translation of `Attribute.add_parent`: re-adding a parent with an already
present object id warns and skips; otherwise the new relationship (with this
attribute as child) is appended and the collection resubmitted. -/
def Attribute.add_parent (s : AttrState) (parent : SchemaObjectReference)
    (relationship_type : RelationshipType)
    (table : Option SchemaObjectReference) : AttrState × MutationOutcome :=
  if s.relationships.any (fun rel => rel.parent.object_id == parent.object_id) then
    (s, .warned)
  else
    let child := SchemaObjectReference.mk s.id s.name
    let table := table.getD s.attribute_lookup_table
    (Attribute.update_relationships s
      (Relationship.mk relationship_type table parent (.child child)) true,
      .updated)

/-- Translation of `Attribute.remove_child`: exactly one of `child` and
`joint_child` must be given; the first relationship whose child (or joint
child list) equals the argument is removed through
`_update_relationships`; with no match a warning is emitted and the
collection is left unchanged. -/
def Attribute.remove_child (s : AttrState)
    (child : Option SchemaObjectReference)
    (joint_child : Option (List SchemaObjectReference)) :
    Except String (AttrState × MutationOutcome) :=
  if (child.isSome && optListTruthy joint_child) ||
      (child.isNone && !optListTruthy joint_child) then
    .error "Please specify either child or joint_child parameter."
  else if optListTruthy joint_child then
    match joint_child with
    | some jc =>
      match s.relationships.find? (fun rel =>
          match rel.children with
          | .joint_children l => l == jc
          | _ => false) with
      | some rel => .ok (Attribute.update_relationships s rel false, .updated)
      | none => .ok (s, .warned)
    | none => .error "unreachable"
  else
    match child with
    | some c =>
      match s.relationships.find? (fun rel =>
          match rel.children with
          | .child c2 => c2 == c
          | _ => false) with
      | some rel => .ok (Attribute.update_relationships s rel false, .updated)
      | none => .ok (s, .warned)
    | none => .error "unreachable"

/-- Translation of `Attribute.remove_parent`: the first relationship whose
parent object id equals the argument (provided that id is not the id of this
attribute) is removed through `_update_relationships`; with no match a
warning is emitted and the collection is left unchanged. -/
def Attribute.remove_parent (s : AttrState) (parent : SchemaObjectReference) :
    AttrState × MutationOutcome :=
  match s.relationships.find? (fun rel =>
      rel.parent.object_id == parent.object_id && parent.object_id != s.id) with
  | some rel => (Attribute.update_relationships s rel false, .updated)
  | none => (s, .warned)

/-- The per-record input of `create_many`/`update_many`: the fields of
`AttributeData` consumed by `_get_create_body`. -/
structure AttributeData where
  name : String
  forms : List AttributeForm
  key_form : Option FormReference
  displays : Option AttributeDisplays
  sorts : Option AttributeSorts
deriving DecidableEq, Repr

/-- The validated payload assembled by `Attribute._get_create_body` (the JSON
body, kept as a structure instead of a dictionary). -/
structure CreateBody where
  name : String
  forms : List AttributeForm
  key_form : FormReference
  displays : AttributeDisplays
  sorts : Option AttributeSorts
deriving DecidableEq, Repr

/-- Per-record update payload built by
`Attribute._attribute_data_to_update_attribute_dto`. -/
structure UpdateAttributeDto where
  id : String
  body : CreateBody
deriving DecidableEq, Repr

/-- Translation of `Attribute._get_create_body`: validate key form, displays
and sorts against the forms, then assemble the payload. -/
def Attribute.get_create_body (d : AttributeData) : Except String CreateBody :=
  match Attribute.validate_key_form d.key_form d.forms none with
  | .error e => .error e
  | .ok kf =>
    match Attribute.validate_displays d.displays d.forms with
    | .error e => .error e
    | .ok ds =>
      match Attribute.validate_sorts d.sorts d.forms with
      | .error e => .error e
      | .ok so => .ok (CreateBody.mk d.name d.forms kf ds so)

/-- Building the list of update payloads, one per `(attribute, data)` pair,
failing at the first record whose validation fails (the order of evaluation
of the list comprehension in `update_many`). -/
def Attribute.build_update_dtos :
    List (AttrState × AttributeData) → Except String (List UpdateAttributeDto)
  | [] => .ok []
  | p :: rest =>
    match Attribute.get_create_body p.2 with
    | .error e => .error e
    | .ok b =>
      match Attribute.build_update_dtos rest with
      | .error e => .error e
      | .ok l => .ok (UpdateAttributeDto.mk p.1.id b :: l)

/-- Translation of `Attribute.update_many` up to the network boundary: reject
mismatched list lengths before building any payload, otherwise build one
update payload per input record (the result handed to
`attributes.update_attributes`). -/
def Attribute.update_many (attributes_list : List AttrState)
    (attributes_data : List AttributeData) :
    Except String (List UpdateAttributeDto) :=
  if attributes_list.length != attributes_data.length then
    .error "Length of attributes list must match length of attributes_data list"
  else
    Attribute.build_update_dtos (attributes_list.zip attributes_data)

/-- Delivery mode discriminant of a subscription. -/
inductive DeliveryMode where
  | cache
  | email
  | file
  | ftp
  | history_list
  | mobile
deriving DecidableEq, Repr

/-- The string value of the delivery mode enum, as compared against string
literals in `SubscriptionManager.execute`. -/
def DeliveryMode.mode_str : DeliveryMode → String
  | .cache => "CACHE"
  | .email => "EMAIL"
  | .file => "FILE"
  | .ftp => "FTP"
  | .history_list => "HISTORY_LIST"
  | .mobile => "MOBILE"

/-- The fields of a subscription read by `SubscriptionManager.execute`. -/
structure SubscriptionState where
  id : String
  name : String
  delivery_mode : DeliveryMode
deriving DecidableEq, Repr

/-- Outcome of `SubscriptionManager.execute` for one subscription: either the
server execute call was issued, or only a recoverable warning was raised. -/
inductive ExecOutcome where
  | executed
  | warned
deriving DecidableEq, Repr

/-- The membership test of `SubscriptionManager.execute`:
`subscription.delivery.mode in (EMAIL, FILE, HISTORY_LIST, FTP)`. -/
def supported_execute_mode (m : DeliveryMode) : Bool :=
  ["EMAIL", "FILE", "HISTORY_LIST", "FTP"].contains m.mode_str

/-- Translation of `SubscriptionManager.execute`: for each passed
subscription, issue the server execute call when the delivery mode is one of
EMAIL, FILE, HISTORY_LIST, FTP, and otherwise raise a recoverable
`UserWarning` and make no server call. -/
def SubscriptionManager.execute (subscriptions : List SubscriptionState) :
    List (SubscriptionState × ExecOutcome) :=
  subscriptions.map (fun subscription =>
    if supported_execute_mode subscription.delivery_mode then
      (subscription, ExecOutcome.executed)
    else (subscription, ExecOutcome.warned))

/-- C1: for the key-form validator, an empty forms list fails; a one-element
forms list yields a reference to that single form regardless of the supplied
key form; with two or more forms the supplied key form is returned unchanged
when it references (by id or name) at least one form, and otherwise
(including an absent key form) validation fails. -/
theorem validate_key_form_spec (kf : Option FormReference) (msg : Option String)
    (forms : List AttributeForm) :
    (forms = [] → (Attribute.validate_key_form kf forms msg).isOk = false)
    ∧ (∀ f, forms = [f] →
        Attribute.validate_key_form kf forms msg
          = .ok (FormReference.mk none (some f.name))
        ∧ f.is_referenced_by (FormReference.mk none (some f.name)) = true)
    ∧ (2 ≤ forms.length →
        (∀ k, kf = some k →
          (forms.any (fun form => form.is_referenced_by k) = true →
            Attribute.validate_key_form kf forms msg = .ok k)
          ∧ (forms.any (fun form => form.is_referenced_by k) = false →
            (Attribute.validate_key_form kf forms msg).isOk = false))
        ∧ (kf = none → (Attribute.validate_key_form kf forms msg).isOk = false)) := by
  refine ⟨?_, ?_, ?_⟩
  · intro h
    subst h
    simp [Attribute.validate_key_form, Except.isOk, Except.toBool]
  · intro f h
    subst h
    exact ⟨rfl, by simp [AttributeForm.is_referenced_by]⟩
  · intro hlen
    match forms, hlen with
    | a :: b :: t, _ =>
      refine ⟨?_, ?_⟩
      · intro k hk
        subst hk
        constructor
        · intro hany
          simp [Attribute.validate_key_form, hany]
        · intro hany
          simp [Attribute.validate_key_form, hany, Except.isOk, Except.toBool]
      · intro hk
        subst hk
        simp [Attribute.validate_key_form, Except.isOk, Except.toBool]

/-- Witness for C1 at concrete inputs: one form auto-selects and resolves;
two forms with an absent key form fail. -/
theorem validate_key_form_spec_witness :
    Attribute.validate_key_form (some (FormReference.mk (some "B1") none))
        [AttributeForm.mk "A1" "ID"] none
      = .ok (FormReference.mk none (some "ID"))
    ∧ (Attribute.validate_key_form none
        [AttributeForm.mk "A1" "ID", AttributeForm.mk "B1" "DESC"] none).isOk
      = false :=
  ⟨((validate_key_form_spec (some (FormReference.mk (some "B1") none)) none
      [AttributeForm.mk "A1" "ID"]).2.1 (AttributeForm.mk "A1" "ID") rfl).1,
   ((validate_key_form_spec none none
      [AttributeForm.mk "A1" "ID", AttributeForm.mk "B1" "DESC"]).2.2
      (by decide)).2 rfl⟩

/-- Helper: a successful `validate_displays` on a present displays object
returns exactly the (possibly repopulated) lists, every reference of which
resolves in `forms`. -/
lemma validate_displays_ok_shape (forms : List AttributeForm)
    (d d' : AttributeDisplays)
    (h : Attribute.validate_displays (some d) forms = .ok d') :
    d'.report_displays
      = (if d.report_displays.isEmpty then allFormRefs forms
         else d.report_displays)
    ∧ d'.browse_displays
      = (if d.browse_displays.isEmpty then allFormRefs forms
         else d.browse_displays)
    ∧ (∀ ref ∈ d'.report_displays ++ d'.browse_displays,
        forms.any (fun form => form.is_referenced_by ref) = true) := by
  simp only [Attribute.validate_displays] at h
  set rd := (if d.report_displays.isEmpty then allFormRefs forms
    else d.report_displays) with hrd
  set bd := (if d.browse_displays.isEmpty then allFormRefs forms
    else d.browse_displays) with hbd
  cases hc1 : Attribute.check_if_referenced_forms_exist displaysErrMsg forms rd with
  | error e =>
    rw [hc1] at h
    exact absurd h (by simp)
  | ok u =>
    rw [hc1] at h
    cases hc2 : Attribute.check_if_referenced_forms_exist displaysErrMsg forms bd with
    | error e =>
      rw [hc2] at h
      exact absurd h (by simp)
    | ok u2 =>
      rw [hc2] at h
      injection h with h
      subst h
      have hall1 : (rd.all
          (fun ref => forms.any (fun form => form.is_referenced_by ref))) = true := by
        by_contra hc
        simp only [Bool.not_eq_true] at hc
        simp [Attribute.check_if_referenced_forms_exist, hc] at hc1
      have hall2 : (bd.all
          (fun ref => forms.any (fun form => form.is_referenced_by ref))) = true := by
        by_contra hc
        simp only [Bool.not_eq_true] at hc
        simp [Attribute.check_if_referenced_forms_exist, hc] at hc2
      refine ⟨rfl, rfl, ?_⟩
      intro ref href
      rcases List.mem_append.1 href with h1 | h1
      · exact List.all_eq_true.1 hall1 ref h1
      · exact List.all_eq_true.1 hall2 ref h1

/-- C2: for the displays validator over a non-empty forms list, an absent
displays object yields references to all forms in both lists; an empty
sub-list is repopulated with references to all forms while a non-empty one
is kept; every reference in a successfully validated result resolves in
`forms`; and if any reference in either (post-population) list fails to
resolve, validation fails. -/
theorem validate_displays_spec (forms : List AttributeForm) (hne : forms ≠ []) :
    (Attribute.validate_displays none forms
      = .ok (AttributeDisplays.mk (allFormRefs forms) (allFormRefs forms)))
    ∧ (∀ d d', Attribute.validate_displays (some d) forms = .ok d' →
        (d.report_displays = [] → d'.report_displays = allFormRefs forms)
        ∧ (d.report_displays ≠ [] → d'.report_displays = d.report_displays)
        ∧ (d.browse_displays = [] → d'.browse_displays = allFormRefs forms)
        ∧ (d.browse_displays ≠ [] → d'.browse_displays = d.browse_displays)
        ∧ (∀ ref ∈ d'.report_displays ++ d'.browse_displays,
            forms.any (fun form => form.is_referenced_by ref) = true))
    ∧ (∀ d,
        (∃ ref ∈
            (if d.report_displays.isEmpty then allFormRefs forms
             else d.report_displays) ++
            (if d.browse_displays.isEmpty then allFormRefs forms
             else d.browse_displays),
          forms.any (fun form => form.is_referenced_by ref) = false) →
        (Attribute.validate_displays (some d) forms).isOk = false) := by
  refine ⟨rfl, ?_, ?_⟩
  · intro d d' h
    obtain ⟨hr, hb, hres⟩ := validate_displays_ok_shape forms d d' h
    refine ⟨?_, ?_, ?_, ?_, hres⟩
    · intro hrep
      rw [hr, hrep]
      simp
    · intro hrep
      rw [hr]
      simp [hrep]
    · intro hbro
      rw [hb, hbro]
      simp
    · intro hbro
      rw [hb]
      simp [hbro]
  · intro d hbad
    obtain ⟨ref, href, hfail⟩ := hbad
    cases hok : Attribute.validate_displays (some d) forms with
    | error e => rfl
    | ok d' =>
      exfalso
      obtain ⟨hr, hb, hres⟩ := validate_displays_ok_shape forms d d' hok
      have : ref ∈ d'.report_displays ++ d'.browse_displays := by
        rw [hr, hb]
        exact href
      rw [hres ref this] at hfail
      exact absurd hfail (by simp)

/-- Witness for C2 at concrete inputs: two forms, an absent displays object,
and a displays object with a dangling reference. -/
theorem validate_displays_spec_witness :
    Attribute.validate_displays none
        [AttributeForm.mk "A1" "ID", AttributeForm.mk "B1" "DESC"]
      = .ok (AttributeDisplays.mk
          [FormReference.mk (some "A1") none, FormReference.mk (some "B1") none]
          [FormReference.mk (some "A1") none, FormReference.mk (some "B1") none])
    ∧ (Attribute.validate_displays
        (some (AttributeDisplays.mk [FormReference.mk (some "ZZ") none] []))
        [AttributeForm.mk "A1" "ID", AttributeForm.mk "B1" "DESC"]).isOk
      = false :=
  ⟨(validate_displays_spec
      [AttributeForm.mk "A1" "ID", AttributeForm.mk "B1" "DESC"]
      (by decide)).1,
   (validate_displays_spec
      [AttributeForm.mk "A1" "ID", AttributeForm.mk "B1" "DESC"]
      (by decide)).2.2
    (AttributeDisplays.mk [FormReference.mk (some "ZZ") none] [])
    ⟨FormReference.mk (some "ZZ") none, by decide, by decide⟩⟩

/-- C7 counterexample: a sorts object whose report and browse sub-lists are
both EMPTY (rather than absent) is returned unchanged by `validate_sorts`,
not replaced by the no-sorts sentinel `none` as the claim states. -/
theorem validate_sorts_empty_lists_cex :
    Attribute.validate_sorts
        (some (AttributeSorts.mk (some []) (some [])))
        [AttributeForm.mk "A1" "ID"]
      = .ok (some (AttributeSorts.mk (some []) (some [])))
    ∧ Attribute.validate_sorts
        (some (AttributeSorts.mk (some []) (some [])))
        [AttributeForm.mk "A1" "ID"]
      ≠ .ok none := by
  refine ⟨rfl, ?_⟩
  intro h
  injection h with h2
  exact Option.noConfusion h2

/-- Whether every form reference in an optional sort sub-list resolves to a
form in `forms` (absent sub-lists resolve vacuously). -/
def sortRefsResolve (forms : List AttributeForm) :
    Option (List AttributeSort) → Bool
  | none => true
  | some l => (l.map (fun attr_sort : AttributeSort => attr_sort.form)).all
      (fun ref => forms.any (fun form => form.is_referenced_by ref))

/-- C7 amended: `validate_sorts` returns the no-sorts sentinel `none` when the
sorts object is absent or both its sub-lists are ABSENT (`None`); otherwise
it returns the sorts unchanged when every form reference in the present
sub-lists resolves in `forms`, and fails when any reference does not
resolve. -/
theorem validate_sorts_spec (forms : List AttributeForm) :
    (Attribute.validate_sorts none forms = .ok none)
    ∧ (∀ s : AttributeSorts, s.report_sorts = none → s.browse_sorts = none →
        Attribute.validate_sorts (some s) forms = .ok none)
    ∧ (∀ s : AttributeSorts, s.report_sorts ≠ none ∨ s.browse_sorts ≠ none →
        (sortRefsResolve forms s.report_sorts = true →
          sortRefsResolve forms s.browse_sorts = true →
          Attribute.validate_sorts (some s) forms = .ok (some s))
        ∧ ((sortRefsResolve forms s.report_sorts = false ∨
            sortRefsResolve forms s.browse_sorts = false) →
          (Attribute.validate_sorts (some s) forms).isOk = false)) := by
  refine ⟨rfl, ?_, ?_⟩
  · intro s h1 h2
    obtain ⟨rs, bs⟩ := s
    simp only at h1 h2
    subst h1
    subst h2
    rfl
  · intro s hne
    obtain ⟨rs, bs⟩ := s
    simp only at hne
    constructor
    · intro hr hb
      cases rs with
      | none =>
        cases bs with
        | none => rcases hne with h | h <;> exact absurd rfl h
        | some lb =>
          simp only [sortRefsResolve] at hb
          simp [Attribute.validate_sorts, Attribute.check_if_referenced_forms_exist, hb]
      | some lr =>
        simp only [sortRefsResolve] at hr
        cases bs with
        | some lb =>
          simp only [sortRefsResolve] at hb
          simp [Attribute.validate_sorts, Attribute.check_if_referenced_forms_exist,
            hr, hb]
        | none =>
          simp [Attribute.validate_sorts, Attribute.check_if_referenced_forms_exist, hr]
    · intro hfails
      rcases hfails with hf | hf
      · cases rs with
        | none => simp [sortRefsResolve] at hf
        | some lr =>
          simp only [sortRefsResolve] at hf
          cases bs <;>
            simp [Attribute.validate_sorts, Attribute.check_if_referenced_forms_exist,
              hf, Except.isOk, Except.toBool]
      · cases bs with
        | none => simp [sortRefsResolve] at hf
        | some lb =>
          simp only [sortRefsResolve] at hf
          cases rs with
          | none =>
            simp [Attribute.validate_sorts, Attribute.check_if_referenced_forms_exist,
              hf, Except.isOk, Except.toBool]
          | some lr =>
            by_cases hr : (lr.map (fun attr_sort : AttributeSort => attr_sort.form)).all
                (fun ref => forms.any (fun form => form.is_referenced_by ref)) = true
            · simp [Attribute.validate_sorts, Attribute.check_if_referenced_forms_exist,
                hr, hf, Except.isOk, Except.toBool]
            · simp only [Bool.not_eq_true] at hr
              simp [Attribute.validate_sorts, Attribute.check_if_referenced_forms_exist,
                hr, Except.isOk, Except.toBool]

/-- Witness for the amended C7 at concrete inputs: both sub-lists absent
yields the sentinel; a present sub-list with a dangling reference fails. -/
theorem validate_sorts_spec_witness :
    Attribute.validate_sorts (some (AttributeSorts.mk none none))
        [AttributeForm.mk "A1" "ID"]
      = .ok none
    ∧ (Attribute.validate_sorts
        (some (AttributeSorts.mk
          (some [AttributeSort.mk (FormReference.mk (some "ZZ") none)]) none))
        [AttributeForm.mk "A1" "ID"]).isOk
      = false :=
  ⟨(validate_sorts_spec [AttributeForm.mk "A1" "ID"]).2.1
      (AttributeSorts.mk none none) rfl rfl,
   ((validate_sorts_spec [AttributeForm.mk "A1" "ID"]).2.2
      (AttributeSorts.mk
        (some [AttributeSort.mk (FormReference.mk (some "ZZ") none)]) none)
      (Or.inl (by decide))).2 (Or.inl (by decide))⟩

/-- C3 counterexample: with forms `[A, B]`, key form `A`, well-formed displays
and an empty sorts object, `remove_form(A.id)` WITHOUT any replacement key
form succeeds (the claim says it always fails): with exactly one remaining
form the key form is auto-derived from it. -/
theorem remove_form_without_replacement_succeeds_cex :
    Attribute.remove_form
        (AttrState.mk "att1" "Customer"
          [AttributeForm.mk "A1" "ID", AttributeForm.mk "B1" "DESC"]
          (SchemaObjectReference.mk "T1" "tbl")
          (some (FormReference.mk (some "A1") none))
          (some (AttributeDisplays.mk
            [FormReference.mk (some "A1") none, FormReference.mk (some "B1") none]
            [FormReference.mk (some "A1") none, FormReference.mk (some "B1") none]))
          (some (AttributeSorts.mk none none)) [])
        "A1" none
      = .ok (AttrState.mk "att1" "Customer" [AttributeForm.mk "B1" "DESC"]
          (SchemaObjectReference.mk "T1" "tbl")
          (some (FormReference.mk none (some "DESC")))
          (some (AttributeDisplays.mk [FormReference.mk (some "B1") none]
            [FormReference.mk (some "B1") none]))
          none []) := by
  rfl

/-- A two-form attribute whose key form is the first form, with displays
referencing each form once by id and an empty sorts object present. -/
def twoFormState (A B : AttributeForm) (sid sname : String)
    (look : SchemaObjectReference) (rels : List Relationship) : AttrState :=
  AttrState.mk sid sname [A, B] look
    (some (FormReference.mk (some A.id) none))
    (some (AttributeDisplays.mk
      [FormReference.mk (some A.id) none, FormReference.mk (some B.id) none]
      [FormReference.mk (some A.id) none, FormReference.mk (some B.id) none]))
    (some (AttributeSorts.mk none none)) rels

/-- C3 amended: for every attribute with forms `[A, B]` (distinct ids), key
form referencing `A`, displays referencing each form once by id and an empty
sorts object present, `remove_form(A.id, new_key_form=ref(B))` succeeds with
the key form becoming a name reference to `B`, `A` removed from the forms
and from both display lists; and `remove_form(A.id)` without a replacement
ALSO succeeds with the same result, since with exactly one remaining form
the key form is auto-derived. -/
theorem remove_form_two_forms_spec (A B : AttributeForm) (h : A.id ≠ B.id)
    (sid sname : String) (look : SchemaObjectReference)
    (rels : List Relationship) :
    Attribute.remove_form (twoFormState A B sid sname look rels) A.id
        (some (FormReference.mk (some B.id) none))
      = .ok (AttrState.mk sid sname [B] look
          (some (FormReference.mk none (some B.name)))
          (some (AttributeDisplays.mk [FormReference.mk (some B.id) none]
            [FormReference.mk (some B.id) none]))
          none rels)
    ∧ Attribute.remove_form (twoFormState A B sid sname look rels) A.id none
      = .ok (AttrState.mk sid sname [B] look
          (some (FormReference.mk none (some B.name)))
          (some (AttributeDisplays.mk [FormReference.mk (some B.id) none]
            [FormReference.mk (some B.id) none]))
          none rels) := by
  have hAA : (A.id == A.id) = true := by simp
  have hBA : (B.id == A.id) = false := by
    simp only [beq_eq_false_iff_ne]
    exact Ne.symm h
  have href : A.is_referenced_by (FormReference.mk (some A.id) none) = true := by
    simp [AttributeForm.is_referenced_by]
  have hrefB : B.is_referenced_by (FormReference.mk (some B.id) none) = true := by
    simp [AttributeForm.is_referenced_by]
  constructor <;>
    simp [Attribute.remove_form, twoFormState, hAA, hBA, href, hrefB,
      Attribute.remove_form_from_displays, Attribute.remove_form_from_sorts,
      Attribute.validate_displays, Attribute.validate_sorts,
      Attribute.validate_key_form, Attribute.check_if_referenced_forms_exist,
      allFormRefs, List.eraseP_cons, List.filter_cons, bne]

/-- Witness for the amended C3 at concrete forms. -/
theorem remove_form_two_forms_spec_witness :
    Attribute.remove_form
        (twoFormState (AttributeForm.mk "A1" "ID") (AttributeForm.mk "B1" "DESC")
          "att1" "Customer" (SchemaObjectReference.mk "T1" "tbl") [])
        "A1" (some (FormReference.mk (some "B1") none))
      = .ok (AttrState.mk "att1" "Customer" [AttributeForm.mk "B1" "DESC"]
          (SchemaObjectReference.mk "T1" "tbl")
          (some (FormReference.mk none (some "DESC")))
          (some (AttributeDisplays.mk [FormReference.mk (some "B1") none]
            [FormReference.mk (some "B1") none]))
          none []) :=
  (remove_form_two_forms_spec (AttributeForm.mk "A1" "ID")
    (AttributeForm.mk "B1" "DESC") (by decide) "att1" "Customer"
    (SchemaObjectReference.mk "T1" "tbl") []).1

/-- C4: `remove_form` fails (submitting no update) whenever no form carries
the given id, and whenever every form carries the given id (so that removal
would delete the last remaining form), regardless of any replacement key
form argument. -/
theorem remove_form_not_found_or_last_fails (s : AttrState) (fid : String)
    (nk : Option FormReference) :
    ((∀ f ∈ s.forms, f.id ≠ fid) → (Attribute.remove_form s fid nk).isOk = false)
    ∧ (s.forms ≠ [] → (∀ f ∈ s.forms, f.id = fid) →
        (Attribute.remove_form s fid nk).isOk = false) := by
  constructor
  · intro hall
    have hfil : s.forms.filter (fun form => form.id == fid) = [] := by
      rw [List.filter_eq_nil_iff]
      intro a ha
      simp [hall a ha]
    simp [Attribute.remove_form, hfil, Except.isOk, Except.toBool]
  · intro hnil hall
    have hfil : s.forms.filter (fun form => form.id != fid) = [] := by
      rw [List.filter_eq_nil_iff]
      intro a ha
      simp [hall a ha]
    simp only [Attribute.remove_form, hfil]
    cases hm : (s.forms.filter (fun form => form.id == fid)).getLast? with
    | none => simp [hm, Except.isOk, Except.toBool]
    | some f => simp [hm, Except.isOk, Except.toBool]

/-- Witness for C4 at concrete inputs: an id matching no form, and the id of
the only remaining form with a replacement key form supplied. -/
theorem remove_form_not_found_or_last_fails_witness :
    (Attribute.remove_form
        (AttrState.mk "att1" "Customer" [AttributeForm.mk "A1" "ID"]
          (SchemaObjectReference.mk "T1" "tbl")
          (some (FormReference.mk (some "A1") none)) none none [])
        "ZZ" none).isOk = false
    ∧ (Attribute.remove_form
        (AttrState.mk "att1" "Customer" [AttributeForm.mk "A1" "ID"]
          (SchemaObjectReference.mk "T1" "tbl")
          (some (FormReference.mk (some "A1") none)) none none [])
        "A1" (some (FormReference.mk (some "B1") none))).isOk = false :=
  ⟨(remove_form_not_found_or_last_fails
      (AttrState.mk "att1" "Customer" [AttributeForm.mk "A1" "ID"]
        (SchemaObjectReference.mk "T1" "tbl")
        (some (FormReference.mk (some "A1") none)) none none [])
      "ZZ" none).1 (by decide),
   (remove_form_not_found_or_last_fails
      (AttrState.mk "att1" "Customer" [AttributeForm.mk "A1" "ID"]
        (SchemaObjectReference.mk "T1" "tbl")
        (some (FormReference.mk (some "A1") none)) none none [])
      "A1" (some (FormReference.mk (some "B1") none))).2 (by decide) (by decide)⟩

/-- C10: for every attribute whose sorts field is absent, `remove_form`
always errors before submitting any update (every successful path passes
through the sorts cascade, which accesses fields of the absent sorts
object), whatever the form id and replacement key form. -/
theorem remove_form_none_sorts_fails (s : AttrState) (fid : String)
    (nk : Option FormReference) (hs : s.sorts = none) :
    (Attribute.remove_form s fid nk).isOk = false := by
  simp only [Attribute.remove_form, hs]
  split
  · rfl
  · split
    · rfl
    · split
      · rfl
      · split
        · rfl
        · split
          · rfl
          · rename_i heq
            simp [Attribute.remove_form_from_sorts] at heq

/-- Witness for C10: a concrete attribute with two forms, valid displays, a
valid replacement key form and absent sorts still fails. -/
theorem remove_form_none_sorts_fails_witness :
    (Attribute.remove_form
        (AttrState.mk "att1" "Customer"
          [AttributeForm.mk "A1" "ID", AttributeForm.mk "B1" "DESC"]
          (SchemaObjectReference.mk "T1" "tbl")
          (some (FormReference.mk (some "A1") none))
          (some (AttributeDisplays.mk
            [FormReference.mk (some "A1") none, FormReference.mk (some "B1") none]
            [FormReference.mk (some "A1") none, FormReference.mk (some "B1") none]))
          none [])
        "A1" (some (FormReference.mk (some "B1") none))).isOk = false :=
  remove_form_none_sorts_fails
    (AttrState.mk "att1" "Customer"
      [AttributeForm.mk "A1" "ID", AttributeForm.mk "B1" "DESC"]
      (SchemaObjectReference.mk "T1" "tbl")
      (some (FormReference.mk (some "A1") none))
      (some (AttributeDisplays.mk
        [FormReference.mk (some "A1") none, FormReference.mk (some "B1") none]
        [FormReference.mk (some "A1") none, FormReference.mk (some "B1") none]))
      none [])
    "A1" (some (FormReference.mk (some "B1") none)) rfl

/-- Helper: `add_child` warns and leaves the state unchanged when some
relationship already has the given child. -/
lemma add_child_mem_warns (s1 : AttrState) (c : SchemaObjectReference)
    (rt : RelationshipType) (t : Option SchemaObjectReference)
    (hmem : s1.relationships.any (fun rel =>
      match rel.children with
      | .child c2 => c2 == c
      | _ => false) = true) :
    Attribute.add_child s1 (some c) none rt t = .ok (s1, .warned) := by
  simp [Attribute.add_child, optListTruthy, hmem]

/-- Helper: `add_child` warns and leaves the state unchanged when some
relationship already has the given joint-child list. -/
lemma add_joint_child_mem_warns (s1 : AttrState)
    (jc : List SchemaObjectReference) (hjc : jc ≠ [])
    (rt : RelationshipType) (t : Option SchemaObjectReference)
    (hmem : s1.relationships.any (fun rel =>
      match rel.children with
      | .joint_children l => l == jc
      | _ => false) = true) :
    Attribute.add_child s1 none (some jc) rt t = .ok (s1, .warned) := by
  simp [Attribute.add_child, optListTruthy, hjc, hmem]

/-- Helper: `add_parent` warns and leaves the state unchanged when some
relationship already has a parent with the given object id. -/
lemma add_parent_mem_warns (s1 : AttrState) (p : SchemaObjectReference)
    (rt : RelationshipType) (t : Option SchemaObjectReference)
    (hmem : s1.relationships.any (fun rel =>
      rel.parent.object_id == p.object_id) = true) :
    Attribute.add_parent s1 p rt t = (s1, .warned) := by
  simp [Attribute.add_parent, hmem]

/-- C5: `add_child` (same child or same joint-child list) and `add_parent`
(parent with the same object id) are idempotent for the caller: whatever the
first call did, a second call with identical references only warns, submits
no update and leaves the relationship collection (hence its count)
unchanged. -/
theorem add_relationship_idempotent (s : AttrState)
    (c : SchemaObjectReference) (jc : List SchemaObjectReference)
    (hjc : jc ≠ []) (p p2 : SchemaObjectReference)
    (hp : p2.object_id = p.object_id)
    (rt rt2 : RelationshipType) (t t2 : Option SchemaObjectReference) :
    (∀ s1 o, Attribute.add_child s (some c) none rt t = .ok (s1, o) →
      Attribute.add_child s1 (some c) none rt2 t2 = .ok (s1, .warned))
    ∧ (∀ s1 o, Attribute.add_child s none (some jc) rt t = .ok (s1, o) →
      Attribute.add_child s1 none (some jc) rt2 t2 = .ok (s1, .warned))
    ∧ (∀ s1 o, Attribute.add_parent s p rt t = (s1, o) →
      Attribute.add_parent s1 p2 rt2 t2 = (s1, .warned)) := by
  refine ⟨?_, ?_, ?_⟩
  · intro s1 o h
    simp only [Attribute.add_child, optListTruthy] at h
    simp only [Option.isSome_some, Option.isNone_some, Bool.and_false,
      Bool.false_and, Bool.or_self, if_false] at h
    by_cases hany : s.relationships.any (fun rel =>
        match rel.children with
        | .child c2 => c2 == c
        | _ => false) = true
    · rw [if_pos hany] at h
      injection h with h
      have hs1 : s1 = s := (Prod.mk.injEq _ _ _ _ ▸ h).1.symm
      subst hs1
      exact add_child_mem_warns s1 c rt2 t2 hany
    · rw [if_neg hany] at h
      injection h with h
      have hs1 : s1 = Attribute.update_relationships s
          (Relationship.mk rt (t.getD s.attribute_lookup_table)
            (SchemaObjectReference.mk s.id s.name) (.child c)) true :=
        (Prod.mk.injEq _ _ _ _ ▸ h).1.symm
      apply add_child_mem_warns
      rw [hs1]
      simp [Attribute.update_relationships]
  · intro s1 o h
    simp only [Attribute.add_child, optListTruthy] at h
    have hje : jc.isEmpty = false := by simp [hjc]
    simp only [Option.isSome_none, Option.isNone_none, hje, Bool.not_false,
      Bool.false_and, Bool.true_and, Bool.false_or, if_false] at h
    by_cases hany : s.relationships.any (fun rel =>
        match rel.children with
        | .joint_children l => l == jc
        | _ => false) = true
    · rw [if_pos hany] at h
      injection h with h
      have hs1 : s1 = s := (Prod.mk.injEq _ _ _ _ ▸ h).1.symm
      subst hs1
      exact add_joint_child_mem_warns s1 jc hjc rt2 t2 hany
    · rw [if_neg hany] at h
      injection h with h
      have hs1 : s1 = Attribute.update_relationships s
          (Relationship.mk rt (t.getD s.attribute_lookup_table)
            (SchemaObjectReference.mk s.id s.name) (.joint_children jc)) true :=
        (Prod.mk.injEq _ _ _ _ ▸ h).1.symm
      apply add_joint_child_mem_warns s1 jc hjc
      rw [hs1]
      simp [Attribute.update_relationships]
  · intro s1 o h
    simp only [Attribute.add_parent] at h
    by_cases hany : s.relationships.any (fun rel =>
        rel.parent.object_id == p.object_id) = true
    · rw [if_pos hany] at h
      have hs1 : s1 = s := (Prod.mk.injEq _ _ _ _ ▸ h).1.symm
      subst hs1
      apply add_parent_mem_warns
      rw [hp]
      exact hany
    · rw [if_neg hany] at h
      have hs1 : s1 = Attribute.update_relationships s
          (Relationship.mk rt (t.getD s.attribute_lookup_table) p
            (.child (SchemaObjectReference.mk s.id s.name))) true :=
        (Prod.mk.injEq _ _ _ _ ▸ h).1.symm
      apply add_parent_mem_warns
      rw [hs1, hp]
      simp [Attribute.update_relationships]

/-- Witness for C5: after adding a child to an attribute with no
relationships, adding the same child again only warns and leaves the state
unchanged. -/
theorem add_relationship_idempotent_witness :
    Attribute.add_child
        (AttrState.mk "att1" "Customer" [AttributeForm.mk "A1" "ID"]
          (SchemaObjectReference.mk "T1" "tbl")
          (some (FormReference.mk (some "A1") none)) none none
          [Relationship.mk RelationshipType.one_to_many
            (SchemaObjectReference.mk "T1" "tbl")
            (SchemaObjectReference.mk "att1" "Customer")
            (RelChildren.child (SchemaObjectReference.mk "c1" "Child"))])
        (some (SchemaObjectReference.mk "c1" "Child")) none
        RelationshipType.one_to_many none
      = .ok (AttrState.mk "att1" "Customer" [AttributeForm.mk "A1" "ID"]
          (SchemaObjectReference.mk "T1" "tbl")
          (some (FormReference.mk (some "A1") none)) none none
          [Relationship.mk RelationshipType.one_to_many
            (SchemaObjectReference.mk "T1" "tbl")
            (SchemaObjectReference.mk "att1" "Customer")
            (RelChildren.child (SchemaObjectReference.mk "c1" "Child"))],
          .warned) :=
  (add_relationship_idempotent
    (AttrState.mk "att1" "Customer" [AttributeForm.mk "A1" "ID"]
      (SchemaObjectReference.mk "T1" "tbl")
      (some (FormReference.mk (some "A1") none)) none none [])
    (SchemaObjectReference.mk "c1" "Child")
    [SchemaObjectReference.mk "c1" "Child"] (by decide)
    (SchemaObjectReference.mk "p1" "Parent")
    (SchemaObjectReference.mk "p1" "Parent") rfl
    RelationshipType.one_to_many RelationshipType.one_to_many none none).1
    (AttrState.mk "att1" "Customer" [AttributeForm.mk "A1" "ID"]
      (SchemaObjectReference.mk "T1" "tbl")
      (some (FormReference.mk (some "A1") none)) none none
      [Relationship.mk RelationshipType.one_to_many
        (SchemaObjectReference.mk "T1" "tbl")
        (SchemaObjectReference.mk "att1" "Customer")
        (RelChildren.child (SchemaObjectReference.mk "c1" "Child"))])
    .updated rfl

/-- Helper: on a duplicate-free list, dropping every element equal to the
first one satisfying `p` is the same as erasing the first element
satisfying `p`. -/
lemma filter_bne_eq_eraseP {α : Type} [DecidableEq α] (l : List α)
    (p : α → Bool) (r : α) (hnd : l.Nodup) (hfind : l.find? p = some r) :
    l.filter (fun x => x != r) = l.eraseP p := by
  induction l with
  | nil => simp at hfind
  | cons a t ih =>
    cases hpa : p a with
    | true =>
      rw [List.find?_cons_of_pos _ hpa] at hfind
      injection hfind with hfind
      subst hfind
      rw [List.eraseP_cons, hpa]
      simp only [List.filter_cons, bne_self_eq_false, cond_true]
      have hnotmem := (List.nodup_cons.1 hnd).1
      exact List.filter_eq_self.2 (fun x hx => by
        simp only [bne_iff_ne, ne_eq]
        intro he
        exact hnotmem (he ▸ hx))
    | false =>
      rw [List.find?_cons_of_neg _ (by simp [hpa])] at hfind
      have hr : p r = true := List.find?_some hfind
      have har : (a != r) = true := by
        simp only [bne_iff_ne, ne_eq]
        intro he
        rw [he, hr] at hpa
        exact Bool.noConfusion hpa
      rw [List.eraseP_cons, hpa, List.filter_cons, har]
      simp only [cond_false, if_true]
      rw [ih (List.nodup_cons.1 hnd).2 hfind]

/-- C6: on a duplicate-free relationship collection, `remove_child` and
`remove_parent` remove exactly the first structurally matching relationship
(same child, same joint-child list, or same parent object id with that id
different from the attribute's own id) and resubmit the collection; when no
relationship matches they warn, raise nothing, and leave the collection
unchanged. -/
theorem remove_relationship_first_match (s : AttrState)
    (hnd : s.relationships.Nodup) (c : SchemaObjectReference)
    (jc : List SchemaObjectReference) (hjc : jc ≠ [])
    (p : SchemaObjectReference) :
    (∀ r, s.relationships.find? (fun rel =>
        match rel.children with
        | .child c2 => c2 == c
        | _ => false) = some r →
      Attribute.remove_child s (some c) none
        = .ok ({ s with relationships := s.relationships.eraseP (fun rel =>
            match rel.children with
            | .child c2 => c2 == c
            | _ => false) }, .updated))
    ∧ (s.relationships.find? (fun rel =>
        match rel.children with
        | .child c2 => c2 == c
        | _ => false) = none →
      Attribute.remove_child s (some c) none = .ok (s, .warned))
    ∧ (∀ r, s.relationships.find? (fun rel =>
        match rel.children with
        | .joint_children l => l == jc
        | _ => false) = some r →
      Attribute.remove_child s none (some jc)
        = .ok ({ s with relationships := s.relationships.eraseP (fun rel =>
            match rel.children with
            | .joint_children l => l == jc
            | _ => false) }, .updated))
    ∧ (s.relationships.find? (fun rel =>
        match rel.children with
        | .joint_children l => l == jc
        | _ => false) = none →
      Attribute.remove_child s none (some jc) = .ok (s, .warned))
    ∧ (∀ r, s.relationships.find? (fun rel =>
        rel.parent.object_id == p.object_id && p.object_id != s.id) = some r →
      Attribute.remove_parent s p
        = ({ s with relationships := s.relationships.eraseP (fun rel =>
            rel.parent.object_id == p.object_id && p.object_id != s.id) },
          .updated))
    ∧ (s.relationships.find? (fun rel =>
        rel.parent.object_id == p.object_id && p.object_id != s.id) = none →
      Attribute.remove_parent s p = (s, .warned)) := by
  refine ⟨?_, ?_, ?_, ?_, ?_, ?_⟩
  · intro r hfind
    have heq := filter_bne_eq_eraseP s.relationships _ r hnd hfind
    simp [Attribute.remove_child, optListTruthy, hfind,
      Attribute.update_relationships, heq]
  · intro hfind
    simp [Attribute.remove_child, optListTruthy, hfind]
  · intro r hfind
    have heq := filter_bne_eq_eraseP s.relationships _ r hnd hfind
    simp [Attribute.remove_child, optListTruthy, hjc, hfind,
      Attribute.update_relationships, heq]
  · intro hfind
    simp [Attribute.remove_child, optListTruthy, hjc, hfind]
  · intro r hfind
    have heq := filter_bne_eq_eraseP s.relationships _ r hnd hfind
    simp [Attribute.remove_parent, hfind, Attribute.update_relationships, heq]
  · intro hfind
    simp [Attribute.remove_parent, hfind]

/-- Witness for C6: removing the only matching child relationship empties the
collection; removing a parent that is not present only warns. -/
theorem remove_relationship_first_match_witness :
    Attribute.remove_child
        (AttrState.mk "att1" "Customer" [AttributeForm.mk "A1" "ID"]
          (SchemaObjectReference.mk "T1" "tbl")
          (some (FormReference.mk (some "A1") none)) none none
          [Relationship.mk RelationshipType.one_to_many
            (SchemaObjectReference.mk "T1" "tbl")
            (SchemaObjectReference.mk "att1" "Customer")
            (RelChildren.child (SchemaObjectReference.mk "c1" "Child"))])
        (some (SchemaObjectReference.mk "c1" "Child")) none
      = .ok (AttrState.mk "att1" "Customer" [AttributeForm.mk "A1" "ID"]
          (SchemaObjectReference.mk "T1" "tbl")
          (some (FormReference.mk (some "A1") none)) none none [], .updated)
    ∧ Attribute.remove_parent
        (AttrState.mk "att1" "Customer" [AttributeForm.mk "A1" "ID"]
          (SchemaObjectReference.mk "T1" "tbl")
          (some (FormReference.mk (some "A1") none)) none none [])
        (SchemaObjectReference.mk "p1" "Parent")
      = (AttrState.mk "att1" "Customer" [AttributeForm.mk "A1" "ID"]
          (SchemaObjectReference.mk "T1" "tbl")
          (some (FormReference.mk (some "A1") none)) none none [], .warned) :=
  ⟨(remove_relationship_first_match
      (AttrState.mk "att1" "Customer" [AttributeForm.mk "A1" "ID"]
        (SchemaObjectReference.mk "T1" "tbl")
        (some (FormReference.mk (some "A1") none)) none none
        [Relationship.mk RelationshipType.one_to_many
          (SchemaObjectReference.mk "T1" "tbl")
          (SchemaObjectReference.mk "att1" "Customer")
          (RelChildren.child (SchemaObjectReference.mk "c1" "Child"))])
      (by simp) (SchemaObjectReference.mk "c1" "Child")
      [SchemaObjectReference.mk "c1" "Child"] (by decide)
      (SchemaObjectReference.mk "p1" "Parent")).1
      (Relationship.mk RelationshipType.one_to_many
        (SchemaObjectReference.mk "T1" "tbl")
        (SchemaObjectReference.mk "att1" "Customer")
        (RelChildren.child (SchemaObjectReference.mk "c1" "Child"))) (by rfl),
   (remove_relationship_first_match
      (AttrState.mk "att1" "Customer" [AttributeForm.mk "A1" "ID"]
        (SchemaObjectReference.mk "T1" "tbl")
        (some (FormReference.mk (some "A1") none)) none none [])
      (by simp) (SchemaObjectReference.mk "c1" "Child")
      [SchemaObjectReference.mk "c1" "Child"] (by decide)
      (SchemaObjectReference.mk "p1" "Parent")).2.2.2.2.2 (by rfl)⟩

/-- Helper: a successful payload build yields one payload per input pair. -/
lemma build_update_dtos_ok_length (l : List (AttrState × AttributeData)) :
    ∀ l', Attribute.build_update_dtos l = .ok l' → l'.length = l.length := by
  induction l with
  | nil =>
    intro l' h
    injection h with h
    subst h
    rfl
  | cons p rest ih =>
    intro l' h
    simp only [Attribute.build_update_dtos] at h
    split at h
    · exact absurd h (by simp)
    · split at h
      · exact absurd h (by simp)
      · rename_i tail htail
        injection h with h
        subst h
        simp [ih tail htail]

/-- C8: `update_many` with mismatched list lengths fails before building any
payload; with equal lengths every successful run produces exactly one update
payload per input record. -/
theorem update_many_length_check (al : List AttrState)
    (ad : List AttributeData) :
    (al.length ≠ ad.length → (Attribute.update_many al ad).isOk = false)
    ∧ (∀ l, Attribute.update_many al ad = .ok l →
        l.length = al.length ∧ l.length = ad.length) := by
  constructor
  · intro h
    simp [Attribute.update_many, bne_iff_ne.mpr h, Except.isOk, Except.toBool]
  · intro l hl
    by_cases he : al.length = ad.length
    · simp only [Attribute.update_many, he, bne_self_eq_false, if_false,
        Bool.false_eq_true] at hl
      have hlen := build_update_dtos_ok_length (al.zip ad) l hl
      rw [List.length_zip, he, min_self] at hlen
      exact ⟨he ▸ hlen, hlen⟩
    · exfalso
      simp [Attribute.update_many, bne_iff_ne.mpr he] at hl

/-- Witness for C8 at concrete inputs: one attribute with two data records
fails; one attribute with one valid data record yields one payload. -/
theorem update_many_length_check_witness :
    (Attribute.update_many
        [AttrState.mk "att1" "Customer" [AttributeForm.mk "A1" "ID"]
          (SchemaObjectReference.mk "T1" "tbl")
          (some (FormReference.mk (some "A1") none)) none none []]
        [AttributeData.mk "Customer" [AttributeForm.mk "A1" "ID"] none none none,
         AttributeData.mk "Region" [AttributeForm.mk "A1" "ID"] none none none]).isOk
      = false
    ∧ (Attribute.update_many
        [AttrState.mk "att1" "Customer" [AttributeForm.mk "A1" "ID"]
          (SchemaObjectReference.mk "T1" "tbl")
          (some (FormReference.mk (some "A1") none)) none none []]
        [AttributeData.mk "Customer" [AttributeForm.mk "A1" "ID"] none none none])
      = .ok [UpdateAttributeDto.mk "att1"
          (CreateBody.mk "Customer" [AttributeForm.mk "A1" "ID"]
            (FormReference.mk none (some "ID"))
            (AttributeDisplays.mk [FormReference.mk (some "A1") none]
              [FormReference.mk (some "A1") none]) none)] :=
  ⟨(update_many_length_check
      [AttrState.mk "att1" "Customer" [AttributeForm.mk "A1" "ID"]
        (SchemaObjectReference.mk "T1" "tbl")
        (some (FormReference.mk (some "A1") none)) none none []]
      [AttributeData.mk "Customer" [AttributeForm.mk "A1" "ID"] none none none,
       AttributeData.mk "Region" [AttributeForm.mk "A1" "ID"] none none none]).1
    (by decide),
   rfl⟩

/-- C9: a subscription passed to `SubscriptionManager.execute` is sent the
server execute call exactly when its delivery mode is one of EMAIL, FILE,
HISTORY_LIST, FTP; any other mode (for example CACHE) only gets a
recoverable warning and no server call. -/
theorem subscription_manager_execute_modes (subs : List SubscriptionState) :
    (∀ sub o, (sub, o) ∈ SubscriptionManager.execute subs →
      (supported_execute_mode sub.delivery_mode = false → o = .warned)
      ∧ (supported_execute_mode sub.delivery_mode = true → o = .executed))
    ∧ supported_execute_mode DeliveryMode.cache = false := by
  constructor
  · intro sub o hmem
    simp only [SubscriptionManager.execute, List.mem_map] at hmem
    obtain ⟨x, hx, hmap⟩ := hmem
    by_cases hs : supported_execute_mode x.delivery_mode = true
    · rw [if_pos hs] at hmap
      have h1 : x = sub := congrArg Prod.fst hmap
      have h2 : ExecOutcome.executed = o := congrArg Prod.snd hmap
      subst h1
      subst h2
      refine ⟨fun hf => ?_, fun _ => rfl⟩
      rw [hf] at hs
      exact Bool.noConfusion hs
    · rw [if_neg hs] at hmap
      have h1 : x = sub := congrArg Prod.fst hmap
      have h2 : ExecOutcome.warned = o := congrArg Prod.snd hmap
      subst h1
      subst h2
      simp only [Bool.not_eq_true] at hs
      refine ⟨fun _ => rfl, fun ht => ?_⟩
      rw [ht] at hs
      exact Bool.noConfusion hs
  · rfl

/-- Witness for C9: a single CACHE subscription is only warned. -/
theorem subscription_manager_execute_modes_witness :
    (SubscriptionState.mk "s1" "Sub1" DeliveryMode.cache, ExecOutcome.warned)
      ∈ SubscriptionManager.execute
        [SubscriptionState.mk "s1" "Sub1" DeliveryMode.cache]
    ∧ ExecOutcome.warned = ExecOutcome.warned :=
  ⟨by decide,
   ((subscription_manager_execute_modes
      [SubscriptionState.mk "s1" "Sub1" DeliveryMode.cache]).1
      (SubscriptionState.mk "s1" "Sub1" DeliveryMode.cache)
      ExecOutcome.warned (by decide)).1 rfl⟩
